import Mathlib

/-!
Verification of the ai-tools-website Content Identity & Prioritization Engine.

This file shallowly embeds the relevant Python modules:
  * ai_tools_website/v1/quality_tiers.py   (scoring, tier partitioning, refresh scheduling)
  * ai_tools_website/v1/slug_registry.py   (canonical slug registry)
  * ai_tools_website/v1/comparison_generator.py (order-independent pair keys)
  * ai_tools_website/v1/tool_classifier.py (rule-based classifier)
  * ai_tools_website/v1/content_enhancer_v2.py (force/staleness gate)

Modelling conventions:
  * Python dict entries that may be absent or falsy are modelled with Option,
    or with "" (for string fields where the code only ever checks truthiness).
  * Machine time is modelled as an integer number of seconds; a stored
    ISO timestamp is either a parsed instant or a malformed blob.
  * Python ints are modelled as Int; counts coming from external APIs
    (stars, downloads, likes, traffic scores, dynamic category scores)
    are modelled as Nat, matching their producers.
-/

set_option maxHeartbeats 1000000
set_option maxRecDepth 4000

/-! ## String helpers: Python's `needle in haystack` substring test -/

def isPrefixL : List Char → List Char → Bool
  | [], _ => true
  | _ :: _, [] => false
  | a :: as, b :: bs => a == b && isPrefixL as bs

def containsL (needle : List Char) : List Char → Bool
  | [] => isPrefixL needle []
  | b :: bs => isPrefixL needle (b :: bs) || containsL needle bs

/-- Python `needle in hay` on strings (substring containment). -/
def strContains (hay needle : String) : Bool := containsL needle.data hay.data

/-- Python `s.lower()` (character-wise lowercasing). -/
def strToLower (s : String) : String := String.mk (s.data.map Char.toLower)

/-- Python `s.strip()` (drop leading and trailing whitespace). -/
def strTrim (s : String) : String :=
  String.mk (((s.data.dropWhile Char.isWhitespace).reverse.dropWhile Char.isWhitespace).reverse)

/-! ## quality_tiers.py : data model -/

def HIGH_VALUE_CATEGORIES : List String :=
  ["language models", "image generation", "code assistants", "chatbots", "agents",
   "developer tools"]

def MEDIUM_VALUE_CATEGORIES : List String :=
  ["audio", "video", "data analysis", "automation", "writing"]

def MIN_DESCRIPTION_CHARS_FOR_INDEX : Nat := 60

/-- `github_stats` dict: star count, truthiness of `last_commit`, and the
parsed age in days of `pushed_at` (`none` = missing or unparsable). -/
structure GithubStats where
  stars : Nat
  last_commit : Bool
  pushed_days_ago : Option Int
deriving Repr, DecidableEq

/-- `huggingface_stats` dict. -/
structure HuggingfaceStats where
  downloads : Nat
  downloads_all_time : Nat
  likes : Nat
deriving Repr, DecidableEq

/-- External data fetched for one tool; `umami_traffic_score` is
`umami_stats.get("traffic_score", 0)` (0 when `umami_stats` is absent). -/
structure ExternalData where
  github_stats : Option GithubStats
  huggingface_stats : Option HuggingfaceStats
  umami_traffic_score : Nat
deriving Repr, DecidableEq

def emptyExternalData : ExternalData := ⟨none, none, 0⟩

/-- A stored timestamp string: either it parses to an instant (in seconds), or
`datetime.fromisoformat` raises on it. -/
inductive Timestamp where
  | valid (seconds : Int)
  | malformed
deriving Repr, DecidableEq

/-- A tool dict. String fields that the code only tests for truthiness use ""
for absent; `tier_field`/`importance_score_field` model the denormalized
`_tier` and `_importance_score` keys. -/
structure Tool where
  id : String
  name : String
  url : String
  description : String
  category : String
  tags : List String
  pricing : String
  enhanced_content : Bool
  enhanced_content_v2 : Bool
  comparisons : Bool
  external_data : ExternalData
  enhanced_at_v2 : Option Timestamp
  tier_field : Option String
  importance_score_field : Option Int
deriving Repr, DecidableEq

/-- `is_minimally_indexable` from quality_tiers.py. -/
def is_minimally_indexable (tool : Tool) : Bool :=
  if tool.url = "" then false
  else if MIN_DESCRIPTION_CHARS_FOR_INDEX ≤ (strTrim tool.description).length then true
  else tool.enhanced_content || tool.enhanced_content_v2

/-- `TierConfig` dataclass. -/
structure TierConfig where
  name : String
  min_score : Nat
  max_count : Option Nat
  web_searches : Nat
  llm_calls : Nat
  refresh_days : Nat
  noindex : Bool
deriving Repr, DecidableEq

def tier1Config : TierConfig := ⟨"tier1", 80, some 50, 5, 3, 7, false⟩
def tier2Config : TierConfig := ⟨"tier2", 50, some 150, 2, 2, 14, false⟩
def tier3Config : TierConfig := ⟨"tier3", 20, none, 0, 1, 30, false⟩
def noindexConfig : TierConfig := ⟨"noindex", 0, none, 0, 0, 0, true⟩

/-- The `TIERS` dict (insertion order preserved). -/
def TIERS : List (String × TierConfig) :=
  [("tier1", tier1Config), ("tier2", tier2Config), ("tier3", tier3Config),
   ("noindex", noindexConfig)]

/-- `get_tier_config`: `TIERS.get(tier_name, TIERS["noindex"])`. -/
def get_tier_config (tier_name : String) : TierConfig :=
  ((TIERS.find? (fun p => p.1 == tier_name)).map Prod.snd).getD noindexConfig

/-! ## quality_tiers.py : importance scoring -/

def github_stars_points (stars : Nat) : Int :=
  if 50000 ≤ stars then 35
  else if 20000 ≤ stars then 30
  else if 10000 ≤ stars then 25
  else if 5000 ≤ stars then 20
  else if 1000 ≤ stars then 15
  else if 500 ≤ stars then 10
  else if 100 ≤ stars then 5
  else 0

/-- Recent-activity bonus inside the GitHub bucket. -/
def github_recency_points (gs : GithubStats) : Int :=
  if gs.last_commit then
    match gs.pushed_days_ago with
    | some d => if d ≤ 30 then 5 else if d ≤ 90 then 3 else 0
    | none => 0
  else 0

def github_points : Option GithubStats → Int
  | some s => github_stars_points s.stars + github_recency_points s
  | none => 0

def hf_downloads_points (downloads : Nat) : Int :=
  if 10000000 ≤ downloads then 35
  else if 1000000 ≤ downloads then 30
  else if 500000 ≤ downloads then 25
  else if 100000 ≤ downloads then 20
  else if 50000 ≤ downloads then 15
  else if 10000 ≤ downloads then 10
  else if 1000 ≤ downloads then 5
  else 0

def hf_likes_points (likes : Nat) : Int :=
  if 1000 ≤ likes then 5 else if 100 ≤ likes then 3 else 0

def hf_points : Option HuggingfaceStats → Int
  | some s =>
      hf_downloads_points (if s.downloads ≠ 0 then s.downloads else s.downloads_all_time)
        + hf_likes_points s.likes
  | none => 0

def alookupNat : List (String × Nat) → String → Option Nat
  | [], _ => none
  | (k, v) :: rest, key => if k = key then some v else alookupNat rest key

/-- Category bucket: dynamic score if `category_scores` is truthy and has the
category, else the static substring-based fallback lists (`for cat in HIGH: if
cat in category`). -/
def category_points (category : String) (category_scores : List (String × Nat)) : Int :=
  match category_scores, alookupNat category_scores category with
  | _ :: _, some v => (v : Int)
  | _, _ =>
    if HIGH_VALUE_CATEGORIES.any (fun cat => strContains category cat) then 15
    else if MEDIUM_VALUE_CATEGORIES.any (fun cat => strContains category cat) then 10
    else 5

def description_points (description : String) : Int :=
  if 200 ≤ description.length then 5
  else if 100 ≤ description.length then 3
  else if 50 ≤ description.length then 1
  else 0

def content_quality_points (tool : Tool) : Int :=
  description_points tool.description
    + (if tool.url ≠ "" then 2 else 0)
    + (if 3 ≤ tool.tags.length then 3 else 0)

def existing_content_points (tool : Tool) : Int :=
  if tool.enhanced_content || tool.enhanced_content_v2 then
    2 + (if tool.comparisons then 3 else 0)
  else 0

/-- `external_data.get("github_stats") or tool.get("external_data", {}).get("github_stats")`. -/
def effective_github (tool : Tool) (external_data : ExternalData) : Option GithubStats :=
  external_data.github_stats <|> tool.external_data.github_stats

def effective_hf (tool : Tool) (external_data : ExternalData) : Option HuggingfaceStats :=
  external_data.huggingface_stats <|> tool.external_data.huggingface_stats

/-- The running `score` accumulated by `calculate_importance_score` before
the final `min(score, 100)` cap. -/
def raw_importance_score (tool : Tool) (external_data : ExternalData)
    (category_scores : List (String × Nat)) : Int :=
  github_points (effective_github tool external_data)
    + hf_points (effective_hf tool external_data)
    + category_points (strToLower tool.category) category_scores
    + content_quality_points tool
    + existing_content_points tool
    + (external_data.umami_traffic_score : Int)

/-- `calculate_importance_score` from quality_tiers.py. -/
def calculate_importance_score (tool : Tool) (external_data : ExternalData)
    (category_scores : List (String × Nat)) : Int :=
  min (raw_importance_score tool external_data category_scores) 100

/-! ## quality_tiers.py : tier partitioning -/

/-- `tool.get("id") or tool.get("name", "")`. -/
def tool_lookup_id (tool : Tool) : String :=
  if tool.id ≠ "" then tool.id else tool.name

/-- `external_data_map.get(tool_id, {})`. -/
def ed_lookup (external_data_map : List (String × ExternalData)) (key : String) : ExternalData :=
  ((external_data_map.find? (fun p => p.1 == key)).map Prod.snd).getD emptyExternalData

/-- The `scored_tools` list built by `tier_all_tools` before sorting. -/
def score_all (tools : List Tool) (external_data_map : List (String × ExternalData))
    (category_scores : List (String × Nat)) : List (Tool × Int) :=
  tools.map (fun tool =>
    (tool, calculate_importance_score tool (ed_lookup external_data_map (tool_lookup_id tool))
      category_scores))

/-- Stable insertion for a descending sort: an element passes over
strictly-greater scores and lands before the first element whose score
is ≤ its own, so equal scores keep their original relative order. -/
def insertDesc (x : Tool × Int) : List (Tool × Int) → List (Tool × Int)
  | [] => [x]
  | y :: ys => if y.2 ≤ x.2 then x :: y :: ys else y :: insertDesc x ys

/-- `scored_tools.sort(key=lambda x: x[1], reverse=True)`: the stable
descending sort by score. -/
def sortDesc : List (Tool × Int) → List (Tool × Int)
  | [] => []
  | x :: xs => insertDesc x (sortDesc xs)

/-- `TIERS["tier1"].max_count or 0`. -/
def tier1_limit : Nat := tier1Config.max_count.getD 0

/-- `TIERS["tier2"].max_count or 0`. -/
def tier2_limit : Nat := tier2Config.max_count.getD 0

/-- The four output lists of `tier_all_tools`. -/
structure Tiered where
  tier1 : List Tool
  tier2 : List Tool
  tier3 : List Tool
  noindex : List Tool
deriving Repr, DecidableEq

def emptyTiered : Tiered := ⟨[], [], [], []⟩

/-- The mutation `tool["_importance_score"] = score; tool["_tier"] = tier`
performed on each tool as it is appended to its tier list. -/
def set_tool_fields (tool : Tool) (score : Int) (tier : String) : Tool :=
  { tool with importance_score_field := some score, tier_field := some tier }

/-- One iteration of the assignment loop in `tier_all_tools`. -/
def assignStep (acc : Tiered) (p : Tool × Int) : Tiered :=
  if ¬ is_minimally_indexable p.1 then
    { acc with noindex := acc.noindex ++ [set_tool_fields p.1 p.2 "noindex"] }
  else if acc.tier1.length < tier1_limit then
    { acc with tier1 := acc.tier1 ++ [set_tool_fields p.1 p.2 "tier1"] }
  else if acc.tier2.length < tier2_limit then
    { acc with tier2 := acc.tier2 ++ [set_tool_fields p.1 p.2 "tier2"] }
  else
    { acc with tier3 := acc.tier3 ++ [set_tool_fields p.1 p.2 "tier3"] }

/-- `tier_all_tools` from quality_tiers.py. -/
def tier_all_tools (tools : List Tool) (external_data_map : List (String × ExternalData))
    (category_scores : List (String × Nat)) : Tiered :=
  List.foldl assignStep emptyTiered (sortDesc (score_all tools external_data_map category_scores))

/-- Forgets the denormalized `_tier`/`_importance_score` bookkeeping keys,
recovering the tool as an input entry. -/
def strip_tiering (tool : Tool) : Tool :=
  { tool with tier_field := none, importance_score_field := none }

/-! ## quality_tiers.py : refresh scheduling -/

/-- `tier = tier or tool.get("_tier", "tier3")` (Python `or`: an empty string
argument also falls back to the tool's own `_tier`). -/
def effective_tier (tier : Option String) (tool : Tool) : String :=
  match tier with
  | some s => if s = "" then tool.tier_field.getD "tier3" else s
  | none => tool.tier_field.getD "tier3"

/-- `should_refresh` from quality_tiers.py; `now` is the current time in
seconds and a refresh interval of `d` days is `d * 86400` seconds. -/
def should_refresh (now : Int) (tool : Tool) (tier : Option String) : Bool :=
  let config := get_tier_config (effective_tier tier tool)
  if config.refresh_days = 0 then false
  else
    match tool.enhanced_at_v2 with
    | none => true
    | some Timestamp.malformed => true
    | some (Timestamp.valid t) => decide ((config.refresh_days : Int) * 86400 ≤ now - t)

/-- The staleness gate of `enhance_tools_v2` (content_enhancer_v2.py):
`if not force and not should_refresh(tool, tier): skipped_count += 1; continue`.
Returns `true` when the tool is skipped as fresh. -/
def refresh_skip_check (now : Int) (force : Bool) (tool : Tool) (tier : Option String) : Bool :=
  !force && !should_refresh now tool tier

/-- Modelled from the spec (§4.4 Refresh Scheduler), which defines the
stale/fresh state as: zero refresh interval is never stale; otherwise a
missing timestamp is stale, a malformed timestamp is stale, and a parsed
timestamp is stale exactly when the elapsed time reaches the interval. -/
def scheduler_stale_spec (now : Int) (enhanced_at : Option Timestamp)
    (refresh_days : Nat) : Prop :=
  refresh_days ≠ 0 ∧
    (enhanced_at = none ∨ enhanced_at = some Timestamp.malformed ∨
      ∃ t, enhanced_at = some (Timestamp.valid t) ∧ (refresh_days : Int) * 86400 ≤ now - t)

/-! ## slug_registry.py -/

/-- One element of a subject's `history` list. -/
structure HistoryEntry where
  slug : String
  replaced_at : String
deriving Repr, DecidableEq

/-- A registry record: `{"current": ..., "history": [...]}` ("" models a
falsy/absent `current`). -/
structure SlugEntry where
  current : String
  history : List HistoryEntry
deriving Repr, DecidableEq

/-- The registry document: the `"tools"` and `"comparisons"` sections, as
insertion-ordered association lists. -/
structure SlugRegistry where
  tools : List (String × SlugEntry)
  comparisons : List (String × SlugEntry)
deriving Repr, DecidableEq

def alookupEntry : List (String × SlugEntry) → String → Option SlugEntry
  | [], _ => none
  | (k, v) :: rest, key => if k = key then some v else alookupEntry rest key

def updateEntry : List (String × SlugEntry) → String → SlugEntry → List (String × SlugEntry)
  | [], _, _ => []
  | (k, v) :: rest, key, e => if k = key then (k, e) :: rest else (k, v) :: updateEntry rest key e

/-- `register_tool_slug` from slug_registry.py; `now` is the `_now_iso()`
timestamp recorded with a history push. -/
def register_tool_slug (registry : SlugRegistry) (tool_id slug now : String) : SlugRegistry :=
  match alookupEntry registry.tools tool_id with
  | none => { registry with tools := registry.tools ++ [(tool_id, ⟨slug, []⟩)] }
  | some entry =>
    if entry.current = slug then registry
    else
      { registry with
        tools := updateEntry registry.tools tool_id
          ⟨slug, if entry.current ≠ "" then entry.history ++ [⟨entry.current, now⟩]
                 else entry.history⟩ }

/-- The slugs contributed by one registry record: its truthy `current` plus
every truthy historic slug. -/
def entry_slugs (e : SlugEntry) : List String :=
  (if e.current ≠ "" then [e.current] else [])
    ++ (e.history.filter (fun h => h.slug ≠ "")).map HistoryEntry.slug

/-- `collect_existing_slugs` from slug_registry.py (the Python set is
modelled as a list, membership standing for set membership). -/
def collect_existing_slugs (registry : SlugRegistry) : List String :=
  registry.tools.flatMap (fun p => entry_slugs p.2)
    ++ registry.comparisons.flatMap (fun p => entry_slugs p.2)

/-! ## comparison_generator.py : the pair registry key -/

/-- `registry_key = "__".join(sorted(participants.values()))` where
`participants = {"tool1": tool1_id, "tool2": tool2_id}`; `sorted` on a
two-element list swaps exactly when the second compares below the first. -/
def comparison_registry_key (tool1_id tool2_id : String) : String :=
  String.intercalate "__"
    (if tool2_id < tool1_id then [tool2_id, tool1_id] else [tool1_id, tool2_id])

/-! ## tool_classifier.py : rule-based classification

Scores are floats that are always whole multiples of 0.5; they are modelled in
half-point units (`score2 = 2 * score`), and the confidence in hundredths
(`confidence100 = 100 * confidence`), both exact. -/

inductive ToolType where
  | open_source
  | ml_model
  | saas_commercial
  | api_service
  | developer_tool
  | generic
deriving Repr, DecidableEq

/-- One row of `CLASSIFICATION_RULES`. The url "patterns" are regexes whose
only metacharacter use is `\.`, so each is a literal substring. A missing key
(`rules.get(..., [])`) is the empty list. -/
structure ClassificationRules where
  url_patterns : List String
  description_signals : List String
  tag_signals : List String
  category_signals : List String
  pricing_signals : List String
  sections : List String
  aggregators : List String
deriving Repr, DecidableEq

def openSourceRules : ClassificationRules :=
  { url_patterns := ["github.com/", "gitlab.com/", "bitbucket.org/", "codeberg.org/",
      "sourceforge.net/"],
    description_signals := ["open source", "open-source", "opensource", "mit license",
      "apache license", "gpl", "bsd license", "self-host", "self host", "fork",
      "contribute", "community-driven"],
    tag_signals := ["open-source", "self-hosted", "foss", "libre"],
    category_signals := [],
    pricing_signals := [],
    sections := ["overview", "github_stats", "installation", "key_features", "community",
      "recent_news"],
    aggregators := ["github", "pypi", "npm"] }

def mlModelRules : ClassificationRules :=
  { url_patterns := ["huggingface.co/", "replicate.com/", "civitai.com/", "ollama.com/"],
    description_signals := ["model", "transformer", "llm", "large language model",
      "neural network", "fine-tun", "pretrain", "inference", "embedding", "diffusion",
      "stable diffusion", "checkpoint", "weights", "parameters", "billion parameter",
      "7b", "13b", "70b", "foundation model"],
    tag_signals := ["model", "llm", "transformer", "machine-learning", "deep-learning",
      "neural-network", "nlp", "computer-vision"],
    category_signals := ["language models", "image generation", "audio", "video"],
    pricing_signals := [],
    sections := ["overview", "model_card", "benchmarks", "usage_examples", "key_features",
      "pricing", "recent_news"],
    aggregators := ["huggingface", "github"] }

def saasCommercialRules : ClassificationRules :=
  { url_patterns := ["/pricing", "/plans", "/subscribe", "/signup", "/sign-up", "/login",
      "/app", "app.", "dashboard"],
    description_signals := ["subscription", "pricing", "enterprise", "pro plan",
      "business plan", "free tier", "pay per", "per month", "/month", "trial", "saas",
      "cloud-based", "hosted solution"],
    tag_signals := [],
    category_signals := [],
    pricing_signals := ["free", "starter", "pro", "enterprise", "custom", "$"],
    sections := ["overview", "pricing_tiers", "key_features", "use_cases", "alternatives",
      "recent_news"],
    aggregators := [] }

def apiServiceRules : ClassificationRules :=
  { url_patterns := ["/api", "/docs", "developer.", "platform."],
    description_signals := ["api", "endpoint", "sdk", "rest", "graphql", "webhook",
      "integration", "developer", "programmatic", "authentication", "rate limit"],
    tag_signals := ["api", "sdk", "developer-tools", "integration"],
    category_signals := [],
    pricing_signals := [],
    sections := ["overview", "api_overview", "code_examples", "key_features", "pricing",
      "recent_news"],
    aggregators := ["github", "pypi", "npm"] }

def developerToolRules : ClassificationRules :=
  { url_patterns := [],
    description_signals := ["cli", "command line", "terminal", "ide", "editor", "plugin",
      "extension", "framework", "library", "toolkit", "dev tool", "developer tool"],
    tag_signals := ["cli", "developer-tools", "productivity", "framework"],
    category_signals := [],
    pricing_signals := [],
    sections := ["overview", "installation", "key_features", "use_cases", "github_stats",
      "recent_news"],
    aggregators := ["github", "pypi", "npm"] }

/-- `CLASSIFICATION_RULES`, in dict insertion order. -/
def CLASSIFICATION_RULES : List (ToolType × ClassificationRules) :=
  [(ToolType.open_source, openSourceRules),
   (ToolType.ml_model, mlModelRules),
   (ToolType.saas_commercial, saasCommercialRules),
   (ToolType.api_service, apiServiceRules),
   (ToolType.developer_tool, developerToolRules)]

/-- `_normalize_text`: `text.lower().strip()` ("" for a missing text). -/
def normalize_text (text : String) : String := strTrim (strToLower text)

/-- `_check_url_patterns`: does the lowercased url contain any pattern. -/
def check_url_patterns (url : String) (patterns : List String) : Bool :=
  patterns.any (fun pattern => strContains (strToLower url) pattern)

/-- `_check_text_signals`: how many signals occur in the normalized text. -/
def check_text_signals (text : String) (signals : List String) : Nat :=
  (signals.filter (fun signal => strContains (normalize_text text) signal)).length

/-- `_calculate_type_score`, in half-point units (all weights doubled:
url match 3.0 ↦ 6, description signal 1.0 ↦ 2, name signal 0.5 ↦ 1,
tag signal 1.5 ↦ 3, category match 2.0 ↦ 4, pricing signal 1.0 ↦ 2). -/
def calculate_type_score2 (tool : Tool) (rules : ClassificationRules) : Nat :=
  (if check_url_patterns tool.url rules.url_patterns then 6 else 0)
    + 2 * check_text_signals tool.description rules.description_signals
    + 1 * check_text_signals tool.name rules.description_signals
    + 3 * (tool.tags.filter (fun tag =>
        (rules.tag_signals.map normalize_text).contains (normalize_text tag))).length
    + (if rules.category_signals ≠ [] ∧
          (rules.category_signals.map normalize_text).contains (normalize_text tool.category)
       then 4 else 0)
    + (if rules.pricing_signals ≠ []
       then 2 * check_text_signals tool.pricing rules.pricing_signals else 0)

/-- Python `max(scores, key=...)`: keeps the FIRST maximum (replaces the
running best only on a strictly greater score). -/
def maxByFirst (best : ToolType × Nat) : List (ToolType × Nat) → ToolType × Nat
  | [] => best
  | x :: xs => maxByFirst (if best.2 < x.2 then x else best) xs

/-- Result dict of `classify_tool` (the returned `scores` are kept in
half-point units). -/
structure ClassificationResult where
  type : ToolType
  confidence100 : Nat
  sections : List String
  aggregators : List String
  scores : List (ToolType × Nat)
deriving Repr, DecidableEq

def default_sections : List String := ["overview", "key_features", "pricing"]

def rules_for (ty : ToolType) : Option ClassificationRules :=
  (CLASSIFICATION_RULES.find? (fun p => p.1 == ty)).map Prod.snd

/-- `classify_tool` from tool_classifier.py. `confidence = min(best/10, 1.0)`
becomes `confidence100 = min(best2 * 5, 100)`, and the low-confidence cutoff
`confidence < 0.1` becomes `confidence100 < 10`. -/
def classify_tool (tool : Tool) : ClassificationResult :=
  let scores := CLASSIFICATION_RULES.map (fun p => (p.1, calculate_type_score2 tool p.2))
  let best := match scores with
    | [] => (ToolType.generic, 0)
    | x :: xs => maxByFirst x xs
  let confidence100 := min (best.2 * 5) 100
  let best_type := if confidence100 < 10 then ToolType.generic else best.1
  let rules := rules_for best_type
  { type := best_type,
    confidence100 := confidence100,
    sections := (rules.map ClassificationRules.sections).getD default_sections,
    aggregators := (rules.map ClassificationRules.aggregators).getD [],
    scores := scores }

/-! ## Concrete sample inputs used by witnesses and counterexamples -/

/-- A tool dict with every field absent/empty. -/
def emptyTool : Tool :=
  { id := "", name := "", url := "", description := "", category := "", tags := [],
    pricing := "", enhanced_content := false, enhanced_content_v2 := false,
    comparisons := false, external_data := emptyExternalData, enhanced_at_v2 := none,
    tier_field := none, importance_score_field := none }

/-- A maximally scoring tool: long description, url, three tags, prior
enhancement and comparisons, and a category with a dynamic score. -/
def sampleBigTool : Tool :=
  { emptyTool with
    id := "big", name := "big", url := "u",
    description := String.mk (List.replicate 200 'a'),
    category := "x", tags := ["a", "b", "c"],
    enhanced_content := true, comparisons := true }

/-- External data giving full GitHub, HuggingFace and traffic buckets. -/
def sampleBigED : ExternalData :=
  { github_stats := some ⟨50000, true, some 0⟩,
    huggingface_stats := some ⟨10000000, 0, 1000⟩,
    umami_traffic_score := 25 }

/-- A tool failing the indexability gate (no url). -/
def sampleGateFailTool : Tool :=
  { emptyTool with id := "fail", name := "fail", category := "y" }

/-- A registry holding one tool subject with current slug "old-slug". -/
def sampleRegistry : SlugRegistry :=
  { tools := [("t1", ⟨"old-slug", []⟩)], comparisons := [] }

/-! ## Helper lemmas: scoring buckets are non-negative -/

theorem github_stars_points_nonneg (stars : Nat) : 0 ≤ github_stars_points stars := by
  unfold github_stars_points
  repeat' split <;> norm_num

theorem github_recency_points_nonneg (gs : GithubStats) : 0 ≤ github_recency_points gs := by
  unfold github_recency_points
  repeat' split <;> norm_num

theorem github_points_nonneg (o : Option GithubStats) : 0 ≤ github_points o := by
  cases o with
  | none => simp [github_points]
  | some s =>
      have h1 := github_stars_points_nonneg s.stars
      have h2 := github_recency_points_nonneg s
      simp only [github_points]
      omega

theorem hf_downloads_points_nonneg (d : Nat) : 0 ≤ hf_downloads_points d := by
  unfold hf_downloads_points
  repeat' split <;> norm_num

theorem hf_likes_points_nonneg (l : Nat) : 0 ≤ hf_likes_points l := by
  unfold hf_likes_points
  repeat' split <;> norm_num

theorem hf_points_nonneg (o : Option HuggingfaceStats) : 0 ≤ hf_points o := by
  cases o with
  | none => simp [hf_points]
  | some s =>
      have h1 := hf_downloads_points_nonneg
        (if s.downloads ≠ 0 then s.downloads else s.downloads_all_time)
      have h2 := hf_likes_points_nonneg s.likes
      simp only [hf_points]
      omega

theorem category_points_nonneg (c : String) (cs : List (String × Nat)) :
    0 ≤ category_points c cs := by
  unfold category_points
  split
  · positivity
  · repeat' split <;> norm_num

theorem description_points_nonneg (d : String) : 0 ≤ description_points d := by
  unfold description_points
  repeat' split <;> norm_num

theorem content_quality_points_nonneg (t : Tool) : 0 ≤ content_quality_points t := by
  have h := description_points_nonneg t.description
  unfold content_quality_points
  repeat' split <;> omega

theorem existing_content_points_nonneg (t : Tool) : 0 ≤ existing_content_points t := by
  unfold existing_content_points
  repeat' split <;> norm_num

theorem raw_importance_score_nonneg (t : Tool) (e : ExternalData)
    (cs : List (String × Nat)) : 0 ≤ raw_importance_score t e cs := by
  have h1 := github_points_nonneg (effective_github t e)
  have h2 := hf_points_nonneg (effective_hf t e)
  have h3 := category_points_nonneg (strToLower t.category) cs
  have h4 := content_quality_points_nonneg t
  have h5 := existing_content_points_nonneg t
  have h6 : (0 : Int) ≤ (e.umami_traffic_score : Int) := Int.natCast_nonneg _
  unfold raw_importance_score
  omega

/-! ## Claim C2 : the importance score is always in [0, 100] -/

/-- C2: for every tool entry, external-data map entry and category-score map,
`calculate_importance_score` returns an integer in [0,100]; the pre-cap sum of
bucket contributions can exceed 100, but the returned value never does and is
never below 0. -/
theorem importance_score_in_range :
    (∀ (tool : Tool) (external_data : ExternalData) (category_scores : List (String × Nat)),
        0 ≤ calculate_importance_score tool external_data category_scores ∧
          calculate_importance_score tool external_data category_scores ≤ 100) ∧
    (∃ (tool : Tool) (external_data : ExternalData) (category_scores : List (String × Nat)),
        100 < raw_importance_score tool external_data category_scores ∧
          calculate_importance_score tool external_data category_scores = 100) := by
  constructor
  · intro tool e cs
    unfold calculate_importance_score
    exact ⟨le_min (raw_importance_score_nonneg tool e cs) (by norm_num), min_le_right _ _⟩
  · exact ⟨sampleBigTool, sampleBigED, [("x", 15)], by decide, by decide⟩

/-! ## Claim C6 : the comparison registry key is order-independent -/

/-- C6: the pair key stored for a comparison of participants (A, B) equals the
pair key for (B, A): `"__".join(sorted([a, b]))` is symmetric. -/
theorem comparison_registry_key_symm (a b : String) :
    comparison_registry_key a b = comparison_registry_key b a := by
  unfold comparison_registry_key
  rcases lt_trichotomy a b with h | h | h
  · rw [if_neg (lt_asymm h), if_pos h]
  · rw [h]
  · rw [if_pos h, if_neg (lt_asymm h)]

/-! ## Claim C8 : the force flag always regenerates -/

/-- C8: when the force-override flag is set, the staleness gate of
`enhance_tools_v2` never skips a tool as fresh (the scheduler decision is
"stale"), regardless of the tier (even a zero-interval one) and of the
enhancement timestamp. -/
theorem force_flag_never_skips (now : Int) (tool : Tool) (tier : Option String) :
    refresh_skip_check now true tool tier = false := rfl

/-! ## Claim C7 : should_refresh matches the scheduler reference definition -/

/-- C7: `should_refresh` agrees exactly with the spec's scheduler state
machine: stale iff the resolved tier's interval is non-zero and the timestamp
is missing, malformed, or at least one interval old. -/
theorem should_refresh_matches_scheduler_spec (now : Int) (tool : Tool) (tier : Option String) :
    should_refresh now tool tier = true ↔
      scheduler_stale_spec now tool.enhanced_at_v2
        (get_tier_config (effective_tier tier tool)).refresh_days := by
  unfold should_refresh scheduler_stale_spec
  by_cases h0 : (get_tier_config (effective_tier tier tool)).refresh_days = 0
  · simp [h0]
  · simp only [if_neg h0, ne_eq, h0, not_false_iff, true_and]
    cases h : tool.enhanced_at_v2 with
    | none => simp
    | some ts =>
      cases ts with
      | malformed => simp
      | valid t => simp [decide_eq_true_iff]

/-! ## Claim C10 : unknown tier names fall back to the noindex config -/

theorem get_tier_config_unknown (s : String) (h1 : s ≠ "tier1") (h2 : s ≠ "tier2")
    (h3 : s ≠ "tier3") (h4 : s ≠ "noindex") : get_tier_config s = noindexConfig := by
  have b1 : (("tier1" : String) == s) = false := beq_eq_false_iff_ne.mpr (Ne.symm h1)
  have b2 : (("tier2" : String) == s) = false := beq_eq_false_iff_ne.mpr (Ne.symm h2)
  have b3 : (("tier3" : String) == s) = false := beq_eq_false_iff_ne.mpr (Ne.symm h3)
  have b4 : (("noindex" : String) == s) = false := beq_eq_false_iff_ne.mpr (Ne.symm h4)
  unfold get_tier_config TIERS
  simp [List.find?, b1, b2, b3, b4]

/-- C10 (counterexample to the claim as stated): the empty string is not one
of the defined tier names, yet `should_refresh` on a tool with no enhancement
timestamp returns true for it, because a falsy tier argument falls back to the
tool's own `_tier` (default "tier3") instead of reaching the noindex config. -/
theorem should_refresh_unknown_tier_counterexample :
    (("" : String) ≠ "tier1" ∧ ("" : String) ≠ "tier2" ∧ ("" : String) ≠ "tier3" ∧
        ("" : String) ≠ "noindex") ∧
      should_refresh 0 emptyTool (some "") = true :=
  ⟨⟨by decide, by decide, by decide, by decide⟩, by decide⟩

/-- C10 (amended): for every tool, calling `should_refresh` with a NON-EMPTY
tier name that is none of tier1/tier2/tier3/noindex returns false, because the
tier-config lookup falls back to the noindex configuration whose refresh
interval is zero. -/
theorem should_refresh_unknown_tier_never (now : Int) (tool : Tool) (s : String)
    (hne : s ≠ "") (h1 : s ≠ "tier1") (h2 : s ≠ "tier2") (h3 : s ≠ "tier3")
    (h4 : s ≠ "noindex") :
    should_refresh now tool (some s) = false := by
  have he : effective_tier (some s) tool = s := by simp [effective_tier, hne]
  simp [should_refresh, he, get_tier_config_unknown s h1 h2 h3 h4, noindexConfig]

/-- Witness for the amended C10 theorem at the concrete tier name "tier4". -/
theorem should_refresh_unknown_tier_never_witness :
    should_refresh 0 emptyTool (some "tier4") = false :=
  should_refresh_unknown_tier_never 0 emptyTool "tier4" (by decide) (by decide) (by decide)
    (by decide) (by decide)

/-! ## Claim C5 : register_tool_slug's effect on a subject's record -/

theorem alookup_updateEntry_self (l : List (String × SlugEntry)) (k : String) (e v : SlugEntry)
    (h : alookupEntry l k = some v) : alookupEntry (updateEntry l k e) k = some e := by
  induction l with
  | nil => simp [alookupEntry] at h
  | cons p rest ih =>
    by_cases hk : p.1 = k
    · simp [alookupEntry, updateEntry, hk]
    · simp only [alookupEntry, updateEntry, hk, if_false, if_neg hk] at h ⊢
      exact ih h

theorem mem_updateEntry_self (l : List (String × SlugEntry)) (k : String) (e v : SlugEntry)
    (h : alookupEntry l k = some v) : (k, e) ∈ updateEntry l k e := by
  induction l with
  | nil => simp [alookupEntry] at h
  | cons p rest ih =>
    by_cases hk : p.1 = k
    · subst hk
      simp [updateEntry]
    · simp only [alookupEntry, if_neg hk] at h
      simp only [updateEntry, if_neg hk]
      exact List.mem_cons_of_mem _ (ih h)

theorem alookup_append_right (l : List (String × SlugEntry)) (k : String) (e : SlugEntry)
    (h : alookupEntry l k = none) : alookupEntry (l ++ [(k, e)]) k = some e := by
  induction l with
  | nil => simp [alookupEntry]
  | cons p rest ih =>
    by_cases hk : p.1 = k
    · simp [alookupEntry, hk] at h
    · simp only [alookupEntry, if_neg hk] at h
      simpa [alookupEntry, if_neg hk] using ih h

theorem mem_collect_of_mem_tools (registry : SlugRegistry) (k : String) (e : SlugEntry)
    (hmem : (k, e) ∈ registry.tools) (s : String) (hs : s ∈ entry_slugs e) :
    s ∈ collect_existing_slugs registry := by
  unfold collect_existing_slugs
  refine List.mem_append_left _ ?_
  exact List.mem_flatMap.mpr ⟨(k, e), hmem, hs⟩

/-- C5: `register_tool_slug`'s full effect on an existing subject record:
requesting the current slug again leaves the registry unchanged; requesting a
different slug (when a truthy current slug exists) replaces `current` and
appends exactly one history entry carrying the previous slug, which stays a
member of `collect_existing_slugs`; and a repeated registration of the same
slug is idempotent. -/
theorem register_tool_slug_effect (registry : SlugRegistry) (tool_id now : String) :
    (∀ slug e, alookupEntry registry.tools tool_id = some e → e.current = slug →
        register_tool_slug registry tool_id slug now = registry) ∧
    (∀ slug e, alookupEntry registry.tools tool_id = some e → e.current ≠ slug →
        e.current ≠ "" →
        alookupEntry (register_tool_slug registry tool_id slug now).tools tool_id =
            some ⟨slug, e.history ++ [⟨e.current, now⟩]⟩ ∧
          e.current ∈ collect_existing_slugs (register_tool_slug registry tool_id slug now)) ∧
    (∀ slug now2,
        register_tool_slug (register_tool_slug registry tool_id slug now) tool_id slug now2 =
          register_tool_slug registry tool_id slug now) := by
  refine ⟨?_, ?_, ?_⟩
  · intro slug e hl hc
    unfold register_tool_slug
    rw [hl]
    simp [hc]
  · intro slug e hl hc hne
    have hreg : register_tool_slug registry tool_id slug now =
        { registry with
          tools := updateEntry registry.tools tool_id
            ⟨slug, e.history ++ [⟨e.current, now⟩]⟩ } := by
      unfold register_tool_slug
      rw [hl]
      simp [hc, hne]
    constructor
    · rw [hreg]
      exact alookup_updateEntry_self registry.tools tool_id _ e hl
    · rw [hreg]
      refine mem_collect_of_mem_tools _ tool_id ⟨slug, e.history ++ [⟨e.current, now⟩]⟩
        ?_ e.current ?_
      · exact mem_updateEntry_self registry.tools tool_id _ e hl
      · unfold entry_slugs
        refine List.mem_append_right _ ?_
        simp [hne]
  · intro slug now2
    match hl : alookupEntry registry.tools tool_id with
    | none =>
      have h1 : register_tool_slug registry tool_id slug now =
          { registry with tools := registry.tools ++ [(tool_id, ⟨slug, []⟩)] } := by
        unfold register_tool_slug
        rw [hl]
      rw [h1]
      unfold register_tool_slug
      rw [show alookupEntry (registry.tools ++ [(tool_id, ⟨slug, []⟩)]) tool_id =
          some ⟨slug, []⟩ from alookup_append_right registry.tools tool_id _ hl]
      simp
    | some e =>
      by_cases hc : e.current = slug
      · have h1 : register_tool_slug registry tool_id slug now = registry := by
          unfold register_tool_slug
          rw [hl]
          simp [hc]
        have h2 : register_tool_slug registry tool_id slug now2 = registry := by
          unfold register_tool_slug
          rw [hl]
          simp [hc]
        rw [h1, h2]
      · have h1 : register_tool_slug registry tool_id slug now =
            { registry with
              tools := updateEntry registry.tools tool_id
                ⟨slug, if e.current ≠ "" then e.history ++ [⟨e.current, now⟩]
                       else e.history⟩ } := by
          unfold register_tool_slug
          rw [hl]
          simp [hc]
        rw [h1]
        unfold register_tool_slug
        rw [show alookupEntry (updateEntry registry.tools tool_id
            ⟨slug, if e.current ≠ "" then e.history ++ [⟨e.current, now⟩] else e.history⟩)
              tool_id =
            some ⟨slug, if e.current ≠ "" then e.history ++ [⟨e.current, now⟩]
                        else e.history⟩ from
          alookup_updateEntry_self registry.tools tool_id _ e hl]
        simp

/-- Witness for C5 at a concrete one-entry registry: re-registering "old-slug"
is a no-op, registering "new-slug" pushes exactly one history entry holding
"old-slug" (which stays collectible), and the rename is idempotent. -/
theorem register_tool_slug_effect_witness :
    register_tool_slug sampleRegistry "t1" "old-slug" "ts1" = sampleRegistry ∧
    (alookupEntry (register_tool_slug sampleRegistry "t1" "new-slug" "ts1").tools "t1" =
        some ⟨"new-slug", [⟨"old-slug", "ts1"⟩]⟩ ∧
      "old-slug" ∈ collect_existing_slugs (register_tool_slug sampleRegistry "t1" "new-slug" "ts1")) ∧
    register_tool_slug (register_tool_slug sampleRegistry "t1" "new-slug" "ts1") "t1" "new-slug"
        "ts2" =
      register_tool_slug sampleRegistry "t1" "new-slug" "ts1" := by
  refine ⟨?_, ?_, ?_⟩
  · exact (register_tool_slug_effect sampleRegistry "t1" "ts1").1 "old-slug" ⟨"old-slug", []⟩
      (by decide) (by decide)
  · exact (register_tool_slug_effect sampleRegistry "t1" "ts1").2.1 "new-slug" ⟨"old-slug", []⟩
      (by decide) (by decide) (by decide)
  · exact (register_tool_slug_effect sampleRegistry "t1" "ts1").2.2 "new-slug" "ts2"

/-! ## Claim C9 : weak classification evidence resolves to generic -/

/-- C9: a tool matching no classification signal of any type (all per-type raw
scores zero) classifies as generic with confidence 0; and whenever the
normalized confidence of the best-scoring type is below the low threshold
(0.1, i.e. confidence100 < 10), the returned type is forced to generic. -/
theorem classifier_low_confidence_generic :
    (∀ tool : Tool, (∀ p ∈ CLASSIFICATION_RULES, calculate_type_score2 tool p.2 = 0) →
        (classify_tool tool).type = ToolType.generic ∧
          (classify_tool tool).confidence100 = 0) ∧
    (∀ tool : Tool, (classify_tool tool).confidence100 < 10 →
        (classify_tool tool).type = ToolType.generic) := by
  constructor
  · intro tool h
    have h1 : calculate_type_score2 tool openSourceRules = 0 :=
      h (ToolType.open_source, openSourceRules) (by simp [CLASSIFICATION_RULES])
    have h2 : calculate_type_score2 tool mlModelRules = 0 :=
      h (ToolType.ml_model, mlModelRules) (by simp [CLASSIFICATION_RULES])
    have h3 : calculate_type_score2 tool saasCommercialRules = 0 :=
      h (ToolType.saas_commercial, saasCommercialRules) (by simp [CLASSIFICATION_RULES])
    have h4 : calculate_type_score2 tool apiServiceRules = 0 :=
      h (ToolType.api_service, apiServiceRules) (by simp [CLASSIFICATION_RULES])
    have h5 : calculate_type_score2 tool developerToolRules = 0 :=
      h (ToolType.developer_tool, developerToolRules) (by simp [CLASSIFICATION_RULES])
    constructor <;>
      simp [classify_tool, CLASSIFICATION_RULES, h1, h2, h3, h4, h5, maxByFirst]
  · intro tool h
    simp only [classify_tool, CLASSIFICATION_RULES] at h ⊢
    rw [if_pos h]

/-- Witness for C9 at the all-empty tool: every raw type score is zero, and
the classifier returns generic with confidence 0 (which is below the
threshold). -/
theorem classifier_low_confidence_generic_witness :
    ((classify_tool emptyTool).type = ToolType.generic ∧
        (classify_tool emptyTool).confidence100 = 0) ∧
      (classify_tool emptyTool).type = ToolType.generic :=
  ⟨(classifier_low_confidence_generic).1 emptyTool (by decide),
   (classifier_low_confidence_generic).2 emptyTool (by decide)⟩

/-! ## Helper lemmas: the stable descending sort -/

theorem insertDesc_perm (x : Tool × Int) (l : List (Tool × Int)) :
    (insertDesc x l).Perm (x :: l) := by
  induction l with
  | nil => exact List.Perm.refl _
  | cons y ys ih =>
    unfold insertDesc
    split
    · exact List.Perm.refl _
    · exact (ih.cons y).trans (List.Perm.swap x y ys)

theorem sortDesc_perm (l : List (Tool × Int)) : (sortDesc l).Perm l := by
  induction l with
  | nil => exact List.Perm.refl _
  | cons x xs ih => exact (insertDesc_perm x (sortDesc xs)).trans (ih.cons x)

theorem insertDesc_pairwise (x : Tool × Int) (l : List (Tool × Int))
    (h : List.Pairwise (fun a b : Tool × Int => b.2 ≤ a.2) l) :
    List.Pairwise (fun a b : Tool × Int => b.2 ≤ a.2) (insertDesc x l) := by
  induction l with
  | nil => simp [insertDesc]
  | cons y ys ih =>
    rcases List.pairwise_cons.mp h with ⟨hy, hys⟩
    unfold insertDesc
    split
    case isTrue hle =>
      refine List.pairwise_cons.mpr ⟨?_, h⟩
      intro z hz
      rcases List.mem_cons.mp hz with rfl | hz'
      · exact hle
      · exact le_trans (hy z hz') hle
    case isFalse hgt =>
      refine List.pairwise_cons.mpr ⟨?_, ih hys⟩
      intro z hz
      rcases List.mem_cons.mp ((insertDesc_perm x ys).mem_iff.mp hz) with rfl | hz'
      · exact le_of_lt (lt_of_not_ge hgt)
      · exact hy z hz'

theorem sortDesc_pairwise (l : List (Tool × Int)) :
    List.Pairwise (fun a b : Tool × Int => b.2 ≤ a.2) (sortDesc l) := by
  induction l with
  | nil => simp [sortDesc]
  | cons x xs ih => exact insertDesc_pairwise x (sortDesc xs) ih

/-! ## Helper lemmas: closed form of the tier fill loop -/

theorem foldl_assignStep_eq (l : List (Tool × Int)) (acc : Tiered) :
    List.foldl assignStep acc l =
      { tier1 := acc.tier1 ++
          (((l.filter (fun p => is_minimally_indexable p.1)).take
            (tier1_limit - acc.tier1.length)).map (fun p => set_tool_fields p.1 p.2 "tier1")),
        tier2 := acc.tier2 ++
          ((((l.filter (fun p => is_minimally_indexable p.1)).drop
            (tier1_limit - acc.tier1.length)).take (tier2_limit - acc.tier2.length)).map
            (fun p => set_tool_fields p.1 p.2 "tier2")),
        tier3 := acc.tier3 ++
          ((((l.filter (fun p => is_minimally_indexable p.1)).drop
            (tier1_limit - acc.tier1.length)).drop (tier2_limit - acc.tier2.length)).map
            (fun p => set_tool_fields p.1 p.2 "tier3")),
        noindex := acc.noindex ++
          ((l.filter (fun p => !is_minimally_indexable p.1)).map
            (fun p => set_tool_fields p.1 p.2 "noindex")) } := by
  induction l generalizing acc with
  | nil => simp
  | cons p rest ih =>
    rw [List.foldl_cons]
    by_cases hp : is_minimally_indexable p.1
    · by_cases h1 : acc.tier1.length < tier1_limit
      · have hstep : assignStep acc p =
            { acc with tier1 := acc.tier1 ++ [set_tool_fields p.1 p.2 "tier1"] } := by
          unfold assignStep
          simp [hp, h1]
        rw [hstep, ih]
        obtain ⟨m, hm⟩ : ∃ m, tier1_limit - acc.tier1.length = m + 1 :=
          ⟨tier1_limit - acc.tier1.length - 1, by omega⟩
        have hm2 : tier1_limit - (acc.tier1.length + 1) = m := by omega
        simp [hp, hm, hm2, List.filter_cons, List.append_assoc]
      · by_cases h2 : acc.tier2.length < tier2_limit
        · have hstep : assignStep acc p =
              { acc with tier2 := acc.tier2 ++ [set_tool_fields p.1 p.2 "tier2"] } := by
            unfold assignStep
            simp [hp, h1, h2]
          rw [hstep, ih]
          have hm1 : tier1_limit - acc.tier1.length = 0 := by omega
          obtain ⟨m, hm⟩ : ∃ m, tier2_limit - acc.tier2.length = m + 1 :=
            ⟨tier2_limit - acc.tier2.length - 1, by omega⟩
          have hm2 : tier2_limit - (acc.tier2.length + 1) = m := by omega
          simp [hp, hm1, hm, hm2, List.filter_cons, List.append_assoc]
        · have hstep : assignStep acc p =
              { acc with tier3 := acc.tier3 ++ [set_tool_fields p.1 p.2 "tier3"] } := by
            unfold assignStep
            simp [hp, h1, h2]
          rw [hstep, ih]
          have hm1 : tier1_limit - acc.tier1.length = 0 := by omega
          have hm2 : tier2_limit - acc.tier2.length = 0 := by omega
          simp [hp, hm1, hm2, List.filter_cons, List.append_assoc]
    · have hstep : assignStep acc p =
          { acc with noindex := acc.noindex ++ [set_tool_fields p.1 p.2 "noindex"] } := by
        unfold assignStep
        simp [hp]
      rw [hstep, ih]
      simp [hp, List.filter_cons, List.append_assoc]

/-- Closed form of `tier_all_tools`: with `P` the gate-passing entries of the
stable descending sort, tier1 is the first `tier1_limit` of `P`, tier2 the
next `tier2_limit`, tier3 the rest, and noindex the gate-failing entries in
sorted order. -/
theorem tier_all_tools_eq (tools : List Tool) (external_data_map : List (String × ExternalData))
    (category_scores : List (String × Nat)) :
    tier_all_tools tools external_data_map category_scores =
      { tier1 := (((sortDesc (score_all tools external_data_map category_scores)).filter
            (fun p => is_minimally_indexable p.1)).take tier1_limit).map
            (fun p => set_tool_fields p.1 p.2 "tier1"),
        tier2 := ((((sortDesc (score_all tools external_data_map category_scores)).filter
            (fun p => is_minimally_indexable p.1)).drop tier1_limit).take tier2_limit).map
            (fun p => set_tool_fields p.1 p.2 "tier2"),
        tier3 := ((((sortDesc (score_all tools external_data_map category_scores)).filter
            (fun p => is_minimally_indexable p.1)).drop tier1_limit).drop tier2_limit).map
            (fun p => set_tool_fields p.1 p.2 "tier3"),
        noindex := ((sortDesc (score_all tools external_data_map category_scores)).filter
            (fun p => !is_minimally_indexable p.1)).map
            (fun p => set_tool_fields p.1 p.2 "noindex") } := by
  unfold tier_all_tools
  rw [foldl_assignStep_eq]
  simp [emptyTiered]

theorem strip_set_tool_fields (t : Tool) (s : Int) (n : String) :
    strip_tiering (set_tool_fields t s n) = strip_tiering t := rfl

/-! ## Claim C1 : tier assignment is a total partition -/

/-- C1: for every input list (and any external-data map and category-score
map), the four tier lists of `tier_all_tools` are, up to the denormalized
`_tier`/`_importance_score` bookkeeping fields, a permutation of the input
entries — every input entry lands in exactly one tier list — and the four
lengths sum to the input count. -/
theorem tier_partition (tools : List Tool) (external_data_map : List (String × ExternalData))
    (category_scores : List (String × Nat)) :
    (((tier_all_tools tools external_data_map category_scores).tier1 ++
        (tier_all_tools tools external_data_map category_scores).tier2 ++
        (tier_all_tools tools external_data_map category_scores).tier3 ++
        (tier_all_tools tools external_data_map category_scores).noindex).map
        strip_tiering).Perm (tools.map strip_tiering) ∧
      (tier_all_tools tools external_data_map category_scores).tier1.length +
        (tier_all_tools tools external_data_map category_scores).tier2.length +
        (tier_all_tools tools external_data_map category_scores).tier3.length +
        (tier_all_tools tools external_data_map category_scores).noindex.length =
        tools.length := by
  have hmk : ∀ (n : String) (l : List (Tool × Int)),
      (l.map (fun p => set_tool_fields p.1 p.2 n)).map strip_tiering =
        l.map (fun p => strip_tiering p.1) := by
    intro n l
    rw [List.map_map]
    exact List.map_congr_left (fun p _ => rfl)
  have hscore : (score_all tools external_data_map category_scores).map
      (fun p => strip_tiering p.1) = tools.map strip_tiering := by
    unfold score_all
    rw [List.map_map]
    exact List.map_congr_left (fun t _ => rfl)
  have hperm : (((tier_all_tools tools external_data_map category_scores).tier1 ++
      (tier_all_tools tools external_data_map category_scores).tier2 ++
      (tier_all_tools tools external_data_map category_scores).tier3 ++
      (tier_all_tools tools external_data_map category_scores).noindex).map
      strip_tiering).Perm (tools.map strip_tiering) := by
    simp only [tier_all_tools_eq, List.map_append, hmk]
    rw [← List.map_append, ← List.map_append, ← List.map_append]
    rw [List.append_assoc
      (((sortDesc (score_all tools external_data_map category_scores)).filter
        (fun p => is_minimally_indexable p.1)).take tier1_limit)
      (((sortDesc (score_all tools external_data_map category_scores)).filter
        (fun p => is_minimally_indexable p.1)).drop tier1_limit |>.take tier2_limit)
      (((sortDesc (score_all tools external_data_map category_scores)).filter
        (fun p => is_minimally_indexable p.1)).drop tier1_limit |>.drop tier2_limit)]
    rw [List.take_append_drop, List.take_append_drop]
    have hfinal : ((score_all tools external_data_map category_scores).map
        (fun p => strip_tiering p.1)).Perm (tools.map strip_tiering) := by
      rw [hscore]
    exact ((List.filter_append_perm _ _).map _).trans
      (((sortDesc_perm _).map _).trans hfinal)
  refine ⟨hperm, ?_⟩
  have hlen := hperm.length_eq
  simp only [List.length_map, List.length_append] at hlen
  omega

/-! ## Claim C3 : tier1 is exactly the top-ranked gate-passing entries -/

theorem insertDesc_filter_score (x : Tool × Int) (l : List (Tool × Int)) (v : Int) :
    (insertDesc x l).filter (fun p => p.2 == v) =
      (x :: l).filter (fun p => p.2 == v) := by
  induction l with
  | nil => rfl
  | cons y ys ih =>
    unfold insertDesc
    split
    · rfl
    case isFalse hgt =>
      by_cases hy : (y.2 == v) = true
      · have hx : (x.2 == v) = false := by
          have hlt : x.2 < y.2 := lt_of_not_ge hgt
          have hy2 : y.2 = v := by simpa using hy
          simp only [beq_eq_false_iff_ne, ne_eq]
          omega
        simp [List.filter_cons, hy, hx, ih]
      · simp only [Bool.not_eq_true] at hy
        simp [List.filter_cons, hy, ih]

/-- Stability of the descending sort: for every score value, the equal-score
entries appear in the sorted output in their original relative order. -/
theorem sortDesc_filter_score (l : List (Tool × Int)) (v : Int) :
    (sortDesc l).filter (fun p => p.2 == v) = l.filter (fun p => p.2 == v) := by
  induction l with
  | nil => rfl
  | cons x xs ih =>
    rw [sortDesc, insertDesc_filter_score]
    simp [List.filter_cons, ih]

theorem sorted_filter_length (tools : List Tool)
    (external_data_map : List (String × ExternalData)) (category_scores : List (String × Nat)) :
    ((sortDesc (score_all tools external_data_map category_scores)).filter
        (fun p => is_minimally_indexable p.1)).length =
      (tools.filter (fun t => is_minimally_indexable t)).length := by
  rw [((sortDesc_perm (score_all tools external_data_map category_scores)).filter
    (fun p => is_minimally_indexable p.1)).length_eq]
  unfold score_all
  rw [List.filter_map, List.length_map]
  exact congrArg List.length (List.filter_congr (fun t _ => rfl))

/-- C3: tier1 is the first `tier1_limit = 50` gate-passing entries of the
stable descending sort of the scored entries (so it holds exactly
`min 50 N` entries, `N` the gate-passing count, and they are the
highest-scoring gate-passers with ties kept in input order); no minimum-score
threshold is consulted — membership depends only on rank. -/
theorem tier1_top_ranked (tools : List Tool) (external_data_map : List (String × ExternalData))
    (category_scores : List (String × Nat)) :
    tier1_limit = 50 ∧
      (tier_all_tools tools external_data_map category_scores).tier1 =
        (((sortDesc (score_all tools external_data_map category_scores)).filter
            (fun p => is_minimally_indexable p.1)).take tier1_limit).map
          (fun p => set_tool_fields p.1 p.2 "tier1") ∧
      (tier_all_tools tools external_data_map category_scores).tier1.length =
        min tier1_limit (tools.filter (fun t => is_minimally_indexable t)).length ∧
      List.Pairwise (fun a b : Tool × Int => b.2 ≤ a.2)
        (sortDesc (score_all tools external_data_map category_scores)) ∧
      (sortDesc (score_all tools external_data_map category_scores)).Perm
        (score_all tools external_data_map category_scores) ∧
      ∀ v : Int,
        ((sortDesc (score_all tools external_data_map category_scores)).filter
            (fun p => p.2 == v)) =
          (score_all tools external_data_map category_scores).filter (fun p => p.2 == v) := by
  refine ⟨rfl, ?_, ?_, sortDesc_pairwise _, sortDesc_perm _,
    fun v => sortDesc_filter_score _ v⟩
  · simp only [tier_all_tools_eq]
  · simp only [tier_all_tools_eq]
    rw [List.length_map, List.length_take,
      sorted_filter_length tools external_data_map category_scores]

/-! ## Claim C4 : gate-failing entries always land in noindex -/

/-- C4: every input entry that fails the minimal-indexability gate is routed
to the noindex tier (with its computed score denormalized onto it),
regardless of that score. -/
theorem gate_fail_routes_noindex (tools : List Tool)
    (external_data_map : List (String × ExternalData)) (category_scores : List (String × Nat))
    (t : Tool) (hmem : t ∈ tools) (hfail : is_minimally_indexable t = false) :
    set_tool_fields t (calculate_importance_score t
        (ed_lookup external_data_map (tool_lookup_id t)) category_scores) "noindex" ∈
      (tier_all_tools tools external_data_map category_scores).noindex := by
  have h1 : (t, calculate_importance_score t
      (ed_lookup external_data_map (tool_lookup_id t)) category_scores) ∈
      score_all tools external_data_map category_scores :=
    List.mem_map_of_mem
      (fun tool => (tool, calculate_importance_score tool
        (ed_lookup external_data_map (tool_lookup_id tool)) category_scores)) hmem
  have h2 := (sortDesc_perm (score_all tools external_data_map category_scores)).mem_iff.mpr h1
  have h3 : (t, calculate_importance_score t
      (ed_lookup external_data_map (tool_lookup_id t)) category_scores) ∈
      (sortDesc (score_all tools external_data_map category_scores)).filter
        (fun p => !is_minimally_indexable p.1) :=
    List.mem_filter.mpr ⟨h2, by simp [hfail]⟩
  simp only [tier_all_tools_eq]
  exact List.mem_map_of_mem (fun p => set_tool_fields p.1 p.2 "noindex") h3

/-- Witness for C4: a url-less tool in a singleton input is in the noindex
list of the output. -/
theorem gate_fail_routes_noindex_witness :
    set_tool_fields sampleGateFailTool (calculate_importance_score sampleGateFailTool
        (ed_lookup [] (tool_lookup_id sampleGateFailTool)) []) "noindex" ∈
      (tier_all_tools [sampleGateFailTool] [] []).noindex :=
  gate_fail_routes_noindex [sampleGateFailTool] [] [] sampleGateFailTool
    (List.mem_singleton.mpr rfl) (by decide)
